import Mathlib

/-!
Verification development for the mystical-app backend.

This file gives a shallow embedding, in Lean 4, of the parts of the
backend that the specification's testable properties are about:

* `src/core/numerology.py` — digit-sum reduction and the life-path number;
* `src/core/tarot.py` — seeded card drawing, shuffling, and spread positioning;
* `src/services/ai/base.py` — the prompt compiler (`format_reading_prompt`
  and its four per-calculator section formatters);
* `src/services/reading_service.py` — the reading orchestrator
  (`process_reading`, `_perform_calculations`, `_get_ai_interpretation`,
  and the `create_reading` slug-resolution helpers).

Python `while` loops are embedded as structurally recursive functions on an
explicit fuel argument whose initial value is provably sufficient (the loop
variable strictly decreases), so that every definition is executable by the
kernel; fuel-irrelevance lemmas establish that the fuel bound is not
observable.  Python dictionaries the code reads with `.get` are embedded as
structures with `Option`-valued fields; `None`-or-empty truthiness tests are
embedded by `pyTruthy`.  Exceptions are embedded as `Except` values;
the global `random` module state is an explicit `Nat` state threaded through
the tarot functions, with the generator itself kept abstract as a
`RandomModel` (any deterministic state machine).
-/

set_option autoImplicit false

set_option maxRecDepth 4000

namespace MysticApp

/-! ## Python string helpers -/

/-- Embeds Python's `sep.join(parts)`. -/
def pyJoin (sep : String) : List String → String
  | [] => ""
  | [x] => x
  | x :: y :: xs => x ++ sep ++ pyJoin sep (y :: xs)

/-- Embeds Python truthiness of an `Optional[str]`: `None` and `""` are falsy. -/
def pyTruthy : Option String → Bool
  | none => false
  | some s => !s.isEmpty

/-- Embeds `opt_str or default` for an `Optional[str]` (falsy values replaced). -/
def pyOrStr (s : Option String) (dflt : String) : String :=
  if pyTruthy s then s.getD "" else dflt

/-- Embeds Python's rendering of an `Optional[str]` inside an f-string:
`None` prints as `"None"`. -/
def showOptStr : Option String → String
  | none => "None"
  | some s => s

/-- Embeds Python's rendering of an `Optional[int]` inside an f-string. -/
def showOptNat : Option Nat → String
  | none => "None"
  | some n => toString n

/-- Embeds `key.replace("_", " ")` on the underscore-joined keys of
`core_numbers` in `_format_numerology_section`. -/
def underscoreToSpace (s : String) : String :=
  String.mk (s.data.map (fun c => if c = '_' then ' ' else c))

/-- Core of Python's `str.title()`: a letter starts uppercased when the
previous character is not a letter, and is lowercased otherwise. -/
def titleCaseGo : Bool → List Char → List Char
  | _, [] => []
  | prevAlpha, c :: cs =>
    (if c.isAlpha then (if prevAlpha then c.toLower else c.toUpper) else c)
      :: titleCaseGo c.isAlpha cs

/-- Embeds Python's `str.title()` as used on `core_numbers` keys. -/
def titleCase (s : String) : String :=
  String.mk (titleCaseGo false s.data)

/-! ## Numerology (`src/core/numerology.py`)

`reduce_to_single_digit` is a `while number > 9` loop that replaces `number`
by the sum of its decimal digits, breaking out early on the master numbers
11/22/33 when `keep_master` is set.  The digit sum of `number` (computed in
Python via `str(number)`) is embedded by `digitSum`, a division-by-ten loop;
both loops strictly decrease their argument, so fuel equal to the starting
value is sufficient (`digitSumGo_fuel_irrel`, `reduceGo_fuel_irrel`). -/

/-- Fuelled digit-sum loop: for positive fuel, the step computes
`n % 10 + digitSum (n / 10)` exactly as summing the characters of `str(n)`
does. -/
def digitSumGo : Nat → Nat → Nat
  | 0, n => n
  | fuel + 1, n => if n < 10 then n else n % 10 + digitSumGo fuel (n / 10)

/-- Embeds `sum(int(digit) for digit in str(number))` for a natural number. -/
def digitSum (n : Nat) : Nat :=
  digitSumGo n n

/-- Embeds `reduce_to_single_digit`'s `while number > 9` loop with explicit
fuel. -/
def reduceGo : Nat → Bool → Nat → Nat
  | 0, _, number => number
  | fuel + 1, keepMaster, number =>
    if number ≤ 9 then number
    else if keepMaster && (number == 11 || number == 22 || number == 33) then number
    else reduceGo fuel keepMaster (digitSum number)

/-- Embeds `reduce_to_single_digit(number, keep_master)` from
`src/core/numerology.py`. -/
def reduceToSingleDigit (keepMaster : Bool) (number : Nat) : Nat :=
  reduceGo number keepMaster number

/-- Decimal digits of `n`, least significant first, with fuel; empty for 0,
mirroring the recursion `str(n)` would produce digit by digit. -/
def digitsRevGo : Nat → Nat → List Nat
  | 0, _ => []
  | fuel + 1, n => if n == 0 then [] else n % 10 :: digitsRevGo fuel (n / 10)

/-- Digits of `str(n)`, most significant first; `str(0)` is `"0"`. -/
def digitsOf (n : Nat) : List Nat :=
  if n == 0 then [0] else (digitsRevGo n n).reverse

/-- Digits of Python's `f"{n:02d}"`: a single-digit value is padded with one
leading zero. -/
def pad2Digits (n : Nat) : List Nat :=
  if n < 10 then 0 :: digitsOf n else digitsOf n

/-- Digit characters of `date_str = f"{month:02d}{day:02d}{year}"` in
`calculate_life_path_number`, as numbers. -/
def lifePathDateDigits (month day year : Nat) : List Nat :=
  pad2Digits month ++ pad2Digits day ++ digitsOf year

/-- Embeds `total = sum(int(digit) for digit in date_str)` in
`calculate_life_path_number`. -/
def lifePathTotal (month day year : Nat) : Nat :=
  (lifePathDateDigits month day year).sum

/-- Embeds the `meanings` lookup table of `get_life_path_meaning`. -/
def getLifePathMeaning (number : Nat) : String :=
  if number == 1 then "Leadership and independence"
  else if number == 2 then "Cooperation and harmony"
  else if number == 3 then "Creativity and communication"
  else if number == 4 then "Stability and hard work"
  else if number == 5 then "Freedom and adventure"
  else if number == 6 then "Nurturing and responsibility"
  else if number == 7 then "Spirituality and introspection"
  else if number == 8 then "Material success and power"
  else if number == 9 then "Humanitarian service"
  else if number == 11 then "Spiritual illumination"
  else if number == 22 then "Master builder"
  else if number == 33 then "Master teacher"
  else "Unknown"

/-- Result dictionary of `calculate_life_path_number` (the `calculation`
string is reproduced from the digit list). -/
structure LifePathResult where
  number : Nat
  calculation : String
  meaning : String
  is_master : Bool
deriving DecidableEq

/-- Embeds `calculate_life_path_number(birth_date)` for a birth date given as
month/day/year numbers. -/
def calculateLifePathNumber (month day year : Nat) : LifePathResult :=
  let dateStr := String.join ((lifePathDateDigits month day year).map (fun d => toString d))
  let total := lifePathTotal month day year
  let reduced := reduceToSingleDigit true total
  { number := reduced
    calculation := dateStr ++ " = " ++ toString total ++ " = " ++ toString reduced
    meaning := getLifePathMeaning reduced
    is_master := reduced == 11 || reduced == 22 || reduced == 33 }

/-! ## Tarot data model (`src/core/tarot.py`)

Deck and spread dictionaries are loaded from JSON files on disk; the fields
the embedded operations read are modelled as structure fields (`Option` for
keys read with `.get`).  Cards carry further keys (arcana, suit, keywords)
that none of the embedded operations inspect. -/

/-- Card dictionary of a deck's `cards` list, restricted to the keys read by
the drawing and formatting code (`name`, `upright_meaning`,
`reversed_meaning`; all read with `.get`). -/
structure Card where
  name : Option String
  upright_meaning : Option String
  reversed_meaning : Option String
deriving DecidableEq

/-- Deck dictionary: `draw_tarot_reading` reads `deck["name"]` directly and
`deck.get("description")` and `deck.get("cards", [])`. -/
structure Deck where
  name : String
  description : Option String
  cards : List Card
deriving DecidableEq

/-- One entry of a spread's `positions` list (`name`, `description`, `x`,
`y`, `rotation`, all read with `.get`, the numeric ones defaulting to 0). -/
structure SpreadPosition where
  name : Option String
  description : Option String
  x : Option Int
  y : Option Int
  rotation : Option Int
deriving DecidableEq

/-- Spread dictionary (`slug`, `name`, `description` read with `.get`;
`spread["card_count"]` read directly; `spread.get("positions", [])`). -/
structure Spread where
  slug : Option String
  name : Option String
  description : Option String
  card_count : Nat
  positions : List SpreadPosition
deriving DecidableEq

/-- A drawn card after `draw_cards` has attached the `reversed` key. -/
structure DrawnCard where
  card : Card
  reversed : Bool
deriving DecidableEq

/-- The `position` sub-dictionary that `apply_spread_positions` builds. -/
structure PositionInfo where
  index : Nat
  name : Option String
  description : Option String
  x : Int
  y : Int
  rotation : Int
deriving DecidableEq

/-- A positioned card (`{**card, "position": {...}}`). -/
structure PositionedCard where
  card : Card
  reversed : Bool
  position : PositionInfo
deriving DecidableEq

/-- The `deck` sub-dictionary of the value `draw_tarot_reading` returns. -/
structure TarotDeckInfo where
  slug : String
  name : String
  description : Option String
deriving DecidableEq

/-- The `metadata` sub-dictionary of the value `draw_tarot_reading` returns
(`draw_time` is wall-clock and left out of the embedding). -/
structure TarotMetadata where
  seed : Option Nat
  partner_slug : Option String
deriving DecidableEq

/-- The `reading_data` dictionary returned by `draw_tarot_reading`. -/
structure ReadingData where
  spread : Spread
  deck : TarotDeckInfo
  question : Option String
  cards : List PositionedCard
  metadata : TarotMetadata
deriving DecidableEq

/-! ## Other calculator result shapes

Only the keys that `format_reading_prompt`'s section formatters read are
modelled. -/

/-- The `birth_info` sub-dictionary of an astrology result. -/
structure BirthInfo where
  date : Option String
  location : Option String
deriving DecidableEq

/-- One planet entry of the astrology result's `planets` dictionary; `house`
is modelled by its printed form inside the f-string. -/
structure PlanetInfo where
  sign : Option String
  house : Option String
deriving DecidableEq

/-- Astrology result (`calculate_birth_chart` output) restricted to the keys
`_format_astro_section` reads; dictionaries are insertion-ordered key/value
lists. -/
structure AstroData where
  birth_info : Option BirthInfo
  planets : List (String × PlanetInfo)
  elements : List (String × Nat)
deriving DecidableEq

/-- One value of the numerology result's `core_numbers` dictionary
(`number`, `meaning` read with `.get`). -/
structure CoreNumber where
  number : Option Nat
  meaning : Option String
deriving DecidableEq

/-- Numerology result restricted to the `core_numbers` dictionary that
`_format_numerology_section` reads (every value is a dictionary, so the
`isinstance(data, dict)` guard always passes). -/
structure NumerologyData where
  core_numbers : List (String × CoreNumber)
deriving DecidableEq

/-- The `animal` sub-dictionary of a zodiac result; `personality` stands for
`animal.get("traits", {}).get("personality", "")`. -/
structure ZodiacAnimal where
  name : Option String
  personality : Option String
deriving DecidableEq

/-- The `element` sub-dictionary of a zodiac result; `personality` stands for
`element.get("characteristics", {}).get("personality", "")`. -/
structure ZodiacElement where
  name : Option String
  personality : Option String
deriving DecidableEq

/-- The `polarity` sub-dictionary of a zodiac result. -/
structure ZodiacPolarity where
  polarityType : Option String
  meaning : Option String
deriving DecidableEq

/-- Chinese zodiac result restricted to the keys `_format_zodiac_section`
reads. -/
structure ZodiacData where
  animal : Option ZodiacAnimal
  element : Option ZodiacElement
  polarity : Option ZodiacPolarity
deriving DecidableEq

/-! ## Prompt compiler (`src/services/ai/base.py`) -/

/-- The persona configuration dictionary passed to `format_reading_prompt`;
only `voice_style` and `tone` are read there (the prompt prefix and suffix
keys are never consumed by the compiler). -/
structure PersonaConfig where
  voice_style : Option String
  tone : Option String
deriving DecidableEq

/-- Embeds Python's `max(elements, key=elements.get)`: the first key whose
value attains the maximum; `none` exactly when the dictionary is empty (in
which position the source guards with `if elements:`). -/
def argmaxFirst : List (String × Nat) → Option String
  | [] => none
  | x :: rest =>
    some (rest.foldl (fun best p => if p.2 > best.2 then p else best) x).1

/-- Embeds `LLMProvider._format_astro_section`. -/
def formatAstroSection (astro_data : Option AstroData) : String :=
  match astro_data with
  | none => "No astrology data available."
  | some a =>
    let lines :=
      ["Birth Date: " ++ ((a.birth_info.bind (fun b => b.date)).getD "Unknown"),
       "Location: " ++ ((a.birth_info.bind (fun b => b.location)).getD "Unknown")]
      ++ (if a.planets.isEmpty then [] else
            "Key Planetary Positions:" ::
              a.planets.filterMap (fun pd =>
                if pd.1 == "Sun" || pd.1 == "Moon" || pd.1 == "Mercury"
                    || pd.1 == "Venus" || pd.1 == "Mars" then
                  some ("  " ++ pd.1 ++ ": " ++ pd.2.sign.getD "Unknown"
                    ++ " in House " ++ pd.2.house.getD "Unknown")
                else none))
      ++ (if a.elements.isEmpty then [] else
            match argmaxFirst a.elements with
            | some e => ["Dominant Element: " ++ e]
            | none => [])
    pyJoin "\n" lines

/-- Embeds `LLMProvider._format_numerology_section`. -/
def formatNumerologySection (numerology_data : Option NumerologyData) : String :=
  match numerology_data with
  | none => "No numerology data available."
  | some nd =>
    pyJoin "\n" (nd.core_numbers.map (fun kv =>
      titleCase (underscoreToSpace kv.1) ++ ": " ++ showOptNat kv.2.number
        ++ " - " ++ kv.2.meaning.getD ""))

/-- Embeds `LLMProvider._format_zodiac_section`. -/
def formatZodiacSection (zodiac_data : Option ZodiacData) : String :=
  match zodiac_data with
  | none => "No Chinese zodiac data available."
  | some z =>
    let lines :=
      (match z.animal with
       | some an => ["Animal: " ++ showOptStr an.name ++ " - " ++ an.personality.getD ""]
       | none => [])
      ++ (match z.element with
          | some el => ["Element: " ++ showOptStr el.name ++ " - " ++ el.personality.getD ""]
          | none => [])
      ++ (match z.polarity with
          | some po => ["Polarity: " ++ showOptStr po.polarityType ++ " - " ++ po.meaning.getD ""]
          | none => [])
    pyJoin "\n" lines

/-- Embeds `LLMProvider._format_tarot_section` (the produced `tarot_data`
always carries its `spread` dictionary, so the `if spread:` truthiness guard
passes whenever the result is present). -/
def formatTarotSection (tarot_data : Option ReadingData) : String :=
  match tarot_data with
  | none => "No tarot data available."
  | some td =>
    let spreadLines :=
      ["Spread: " ++ showOptStr td.spread.name ++ " - " ++ td.spread.description.getD ""]
    let cardLines :=
      if td.cards.isEmpty then [] else
        "Cards Drawn:" ::
          (td.cards.map (fun c =>
            let positionName := c.position.name.getD "Unknown Position"
            let cardName := c.card.name.getD "Unknown Card"
            let revTag := if c.reversed then " (Reversed)" else ""
            let meaning :=
              (if c.reversed then c.card.reversed_meaning else c.card.upright_meaning).getD ""
            ["  " ++ positionName ++ ": " ++ cardName ++ revTag]
              ++ (if meaning.isEmpty then [] else ["    Meaning: " ++ meaning]))).flatten
    pyJoin "\n" (spreadLines ++ cardLines)

/-- Persona voice directives appended by `format_reading_prompt` (each only
when its value is truthy). -/
def personaLines (persona_config : Option PersonaConfig) : List String :=
  match persona_config with
  | none => []
  | some p =>
    (if pyTruthy p.voice_style then
       ["Speak in a " ++ p.voice_style.getD "" ++ " voice."] else [])
    ++ (if pyTruthy p.tone then
          ["Use a " ++ p.tone.getD "" ++ " tone throughout."] else [])

/-- The `prompt_parts` list that `format_reading_prompt` assembles before
joining with newlines. -/
def promptParts (astro_data : Option AstroData) (numerology_data : Option NumerologyData)
    (zodiac_data : Option ZodiacData) (tarot_data : Option ReadingData)
    (question partner_prompt_stub : Option String)
    (persona_config : Option PersonaConfig) : List String :=
  (if pyTruthy partner_prompt_stub then [partner_prompt_stub.getD ""] else [])
  ++ personaLines persona_config
  ++ (if pyTruthy question then
        ["The user asks: \x27" ++ question.getD "" ++ "\x27"] else [])
  ++ ["Based on the following spiritual calculations, provide a comprehensive reading:",
      "",
      "ASTROLOGY:",
      formatAstroSection astro_data,
      "",
      "NUMEROLOGY:",
      formatNumerologySection numerology_data,
      "",
      "CHINESE ZODIAC:",
      formatZodiacSection zodiac_data,
      "",
      "TAROT:",
      formatTarotSection tarot_data,
      "",
      "Please weave these insights together into a cohesive, positive, and empowering reading.",
      "Focus on growth opportunities and frame any challenges as chances for improvement.",
      "Keep the reading between 800-1200 words."]

/-- Embeds `LLMProvider.format_reading_prompt`: the assembled parts joined
with newlines.  The function is total over any subset of present calculator
results — the embedded compiler cannot raise. -/
def formatReadingPrompt (astro_data : Option AstroData) (numerology_data : Option NumerologyData)
    (zodiac_data : Option ZodiacData) (tarot_data : Option ReadingData)
    (question partner_prompt_stub : Option String)
    (persona_config : Option PersonaConfig) : String :=
  pyJoin "\n"
    (promptParts astro_data numerology_data zodiac_data tarot_data
      question partner_prompt_stub persona_config)

/-! ## Exceptions (`src/core/exceptions.py`) -/

/-- Embeds `MetaMysticException` and its subclasses: message, HTTP status
code, error code, and the `calculation_type` detail that `CalculationError`
carries (`none` for the other classes). -/
structure MetaMysticErr where
  message : String
  status_code : Nat
  error_code : String
  calculation_type : Option String
deriving DecidableEq

/-- Embeds a bare `MetaMysticException(message, status_code)` (the default
error code is `"INTERNAL_ERROR"`). -/
def metaMysticException (message : String) (status_code : Nat) : MetaMysticErr :=
  { message := message
    status_code := status_code
    error_code := "INTERNAL_ERROR"
    calculation_type := none }

/-- Embeds `CalculationError(calculation_type, message)`. -/
def calculationError (calcType message : String) : MetaMysticErr :=
  { message := "Calculation error in " ++ calcType ++ ": " ++ message
    status_code := 422
    error_code := "CALCULATION_ERROR"
    calculation_type := some calcType }

/-- Embeds `LLMProviderError(provider, message)`. -/
def llmProviderError (provider message : String) : MetaMysticErr :=
  { message := "LLM provider \x27" ++ provider ++ "\x27 error: " ++ message
    status_code := 502
    error_code := "LLM_PROVIDER_ERROR"
    calculation_type := none }

/-- Boolean success test on an embedded exception-or-value result. -/
def exceptIsOk {ε α : Type} : Except ε α → Bool
  | .ok _ => true
  | .error _ => false

/-- Embeds Python's `try`/`except` success-to-value, exception-to-absence
pattern of `_perform_calculations`. -/
def caught {ε α : Type} : Except ε α → Option α
  | .ok v => some v
  | .error _ => none

/-! ## Tarot drawing (`src/core/tarot.py`)

The CPython `random` module is a deterministic generator whose global state
is reset by `random.seed(seed)`.  It is embedded as an abstract
`RandomModel` — any state machine on `Nat` states — together with an
explicit state value threaded through the drawing functions; determinism
claims are proved for every model, so nothing depends on the concrete
Mersenne-Twister step function. -/

/-- Abstract model of the `random` module: `seedState` is the state
installed by `random.seed(s)`, `next` produces one raw output and the
successor state, and `reversalFlag` interprets one output as the Boolean
`random.random() < settings.REVERSAL_PROBABILITY`. -/
structure RandomModel where
  seedState : Nat → Nat
  next : Nat → Nat × Nat
  reversalFlag : Nat → Bool

/-- Swap the entries at positions `i` and `j` of a list (the body of one
Fisher-Yates step `x[i], x[j] = x[j], x[i]`); out-of-range indices leave the
list unchanged (they never occur in `pyShuffle`). -/
def swapIdx {α : Type} (l : List α) (i j : Nat) : List α :=
  if h : i < l.length ∧ j < l.length then
    (l.set i (l.get ⟨j, h.2⟩)).set j (l.get ⟨i, h.1⟩)
  else l

/-- The Fisher-Yates loop of `random.shuffle`: `for i in
reversed(range(1, len(x))): j = randbelow(i+1); swap`.  The first argument is
the current loop index `i`. -/
def shuffleGo {α : Type} (M : RandomModel) : Nat → List α → Nat → List α × Nat
  | 0, l, st => (l, st)
  | i + 1, l, st =>
    let p := M.next st
    let j := p.1 % (i + 2)
    shuffleGo M i (swapIdx l (i + 1) j) p.2

/-- Embeds `random.shuffle(x)` on the explicit generator state. -/
def pyShuffle {α : Type} (M : RandomModel) (l : List α) (st : Nat) : List α × Nat :=
  shuffleGo M (l.length - 1) l st

/-- The orientation loop of `draw_cards`: one generator draw per card sets
its `reversed` key. -/
def assignOrientations (M : RandomModel) : List Card → Nat → List DrawnCard × Nat
  | [], st => ([], st)
  | c :: cs, st =>
    let p := M.next st
    let rest := assignOrientations M cs p.2
    ({ card := c, reversed := M.reversalFlag p.1 } :: rest.1, rest.2)

/-- Embeds `draw_cards(deck, count)`: fails when the deck holds fewer cards
than requested, otherwise shuffles a copy, takes the first `count`, and
assigns orientations. -/
def drawCards (M : RandomModel) (deck : Deck) (count : Nat) (st : Nat) :
    Except MetaMysticErr (List DrawnCard × Nat) :=
  if deck.cards.length < count then
    .error (calculationError "tarot"
      ("Deck has only " ++ toString deck.cards.length ++ " cards, cannot draw "
        ++ toString count))
  else
    let s := pyShuffle M deck.cards st
    .ok (assignOrientations M (s.1.take count) s.2)

/-- The loop body of `apply_spread_positions`, carrying the enumeration
index: a card is kept only while `i < len(positions)`. -/
def applyPositionsGo (positions : List SpreadPosition) :
    Nat → List DrawnCard → List PositionedCard
  | _, [] => []
  | i, c :: cs =>
    match positions.get? i with
    | some p =>
      { card := c.card
        reversed := c.reversed
        position :=
          { index := i
            name := p.name
            description := p.description
            x := p.x.getD 0
            y := p.y.getD 0
            rotation := p.rotation.getD 0 } } :: applyPositionsGo positions (i + 1) cs
    | none => applyPositionsGo positions (i + 1) cs

/-- Embeds `apply_spread_positions(cards, spread)`. -/
def applySpreadPositions (cards : List DrawnCard) (spread : Spread) : List PositionedCard :=
  applyPositionsGo spread.positions 0 cards

/-- The on-disk spread and deck catalogues that `load_spread` and
`load_deck` read; both loaders are local-file lookups embedded as pure
functions of the slugs (the disk does not change between invocations). -/
structure TarotEnv where
  loadSpread : String → Except MetaMysticErr Spread
  loadDeck : Option String → Option String → Except MetaMysticErr Deck

/-- Embeds `settings.DEFAULT_TAROT_DECK`. -/
def DEFAULT_TAROT_DECK : String := "rider_waite_smith"

/-- Embeds the outer `except Exception` of `draw_tarot_reading`, which
re-wraps any inner exception (whose `str` is its message) as
`CalculationError("tarot", f"Failed to draw tarot reading: {str(e)}")`. -/
def wrapTarotError (e : MetaMysticErr) : MetaMysticErr :=
  calculationError "tarot" ("Failed to draw tarot reading: " ++ e.message)

/-- Embeds `if seed is not None: random.seed(seed)`: the generator state
after the optional reseeding at the top of `draw_tarot_reading`. -/
def seededState (M : RandomModel) (seed : Option Nat) (globalState : Nat) : Nat :=
  match seed with
  | some s => M.seedState s
  | none => globalState

/-- Embeds `draw_tarot_reading(spread_slug, deck_slug, partner_slug, seed,
question)`.  `globalState` is the `random` module state on entry; the result
pairs the returned value (or raised exception) with the state on exit. -/
def drawTarotReading (M : RandomModel) (env : TarotEnv) (spread_slug : String)
    (deck_slug partner_slug : Option String) (seed : Option Nat)
    (question : Option String) (globalState : Nat) :
    Except MetaMysticErr ReadingData × Nat :=
  let st0 := seededState M seed globalState
  match env.loadSpread spread_slug with
  | .error e => (.error (wrapTarotError e), st0)
  | .ok spread =>
    match env.loadDeck deck_slug partner_slug with
    | .error e => (.error (wrapTarotError e), st0)
    | .ok deck =>
      match drawCards M deck spread.card_count st0 with
      | .error e => (.error (wrapTarotError e), st0)
      | .ok (drawn, st1) =>
        let positioned := applySpreadPositions drawn spread
        (.ok { spread := spread
               deck := { slug := pyOrStr deck_slug DEFAULT_TAROT_DECK
                         name := deck.name
                         description := deck.description }
               question := question
               cards := positioned
               metadata := { seed := seed, partner_slug := partner_slug } }, st1)

/-- Card identities of a tarot draw result, in drawn order. -/
def resultCardNames (r : Except MetaMysticErr ReadingData) : Option (List (Option String)) :=
  (caught r).map (fun rd => rd.cards.map (fun c => c.card.name))

/-- Reversed/upright flags of a tarot draw result, in drawn order. -/
def resultReversedFlags (r : Except MetaMysticErr ReadingData) : Option (List Bool) :=
  (caught r).map (fun rd => rd.cards.map (fun c => c.reversed))

/-! ## Reading orchestrator (`src/services/reading_service.py`)

`process_reading` is embedded as a pure transition on the persisted
`Reading` row: database commits become functional updates of the row, the
four calculator invocations are parameters giving the value each pure
calculator call would produce (or the exception it would raise), and the
LLM provider is a parameter mapping the compiled prompt to a response or a
raised error.  `process_reading` is invoked from the background task with
`request=None`, so in `_perform_calculations` every `include_<calculator>`
test passes and `full_name` is the truthy literal `"Unknown"`. -/

/-- Embeds `ReadingStatus`. -/
inductive ReadingStatus where
  | pending
  | processing
  | completed
  | failed
deriving DecidableEq

/-- The persisted `Reading` row, restricted to the fields `process_reading`
reads or writes; the birth inputs only matter through their truthiness in
`_perform_calculations`, so they are kept as presence flags
(`processing_time_ms` is wall-clock and left out of the embedding). -/
structure ReadingRow where
  status : ReadingStatus
  hasBirthDate : Bool
  hasBirthTime : Bool
  hasBirthLatitude : Bool
  hasBirthLongitude : Bool
  question : Option String
  astrology_data : Option AstroData
  numerology_data : Option NumerologyData
  zodiac_data : Option ZodiacData
  tarot_data : Option ReadingData
  interpretation : Option String
  llm_provider : Option String
  llm_model : Option String
deriving DecidableEq

/-- The outcome each of the four pure calculator calls would have for this
reading's inputs: the returned mapping, or the raised exception. -/
structure CalcRuns where
  astro : Except MetaMysticErr AstroData
  numerology : Except MetaMysticErr NumerologyData
  zodiac : Except MetaMysticErr ZodiacData
  tarot : Except MetaMysticErr ReadingData

/-- The in-memory `calculations` dictionary: one optional entry per
calculator. -/
structure Calculations where
  astrology : Option AstroData
  numerology : Option NumerologyData
  zodiac : Option ZodiacData
  tarot : Option ReadingData
deriving DecidableEq

/-- Embeds `_perform_calculations(reading)` as invoked from
`process_reading` (`request=None`): each calculator runs when its required
inputs are present, and its exception, if any, is caught and recorded as
absence; the tarot draw always runs. -/
def performCalculations (r : ReadingRow) (runs : CalcRuns) : Calculations :=
  { astrology :=
      if r.hasBirthDate && r.hasBirthTime && r.hasBirthLatitude && r.hasBirthLongitude then
        caught runs.astro
      else none
    numerology := if r.hasBirthDate then caught runs.numerology else none
    zodiac := if r.hasBirthDate then caught runs.zodiac else none
    tarot := caught runs.tarot }

/-- The provider response dictionary (`content`, `provider`, `model`; token
usage is not read by `process_reading`). -/
structure LLMResponse where
  content : String
  provider : String
  model : String
deriving DecidableEq

/-- The prompt that `_get_ai_interpretation` compiles for a reading's
calculation results. -/
def interpretationPrompt (calcs : Calculations) (question partner_prompt_stub : Option String)
    (persona_config : Option PersonaConfig) : String :=
  formatReadingPrompt calcs.astrology calcs.numerology calcs.zodiac calcs.tarot
    question partner_prompt_stub persona_config

/-- Embeds `_get_ai_interpretation`: any exception from the provider call is
wrapped as `LLMProviderError("unknown", f"Failed to generate interpretation:
{str(e)}")`.  `llm` maps the compiled prompt to the provider outcome. -/
def getAiInterpretation (calcs : Calculations) (question partner_prompt_stub : Option String)
    (persona_config : Option PersonaConfig)
    (llm : String → Except String LLMResponse) : Except MetaMysticErr LLMResponse :=
  match llm (interpretationPrompt calcs question partner_prompt_stub persona_config) with
  | .ok resp => .ok resp
  | .error msg =>
    .error (llmProviderError "unknown" ("Failed to generate interpretation: " ++ msg))

/-- Embeds `process_reading(reading_id)` for an existing reading row.  The
first component is the row as persisted when the call ends; the second is
the call's outcome: `ok` with the completed row, or the exception the bare
`raise` in the `except` clause propagates to the caller after the row was
marked `failed`. -/
def processReading (r : ReadingRow) (runs : CalcRuns)
    (llm : String → Except String LLMResponse)
    (partner_prompt_stub : Option String) (persona_config : Option PersonaConfig) :
    ReadingRow × Except MetaMysticErr ReadingRow :=
  let r1 := { r with status := ReadingStatus.processing }
  let calcs := performCalculations r1 runs
  match getAiInterpretation calcs r1.question partner_prompt_stub persona_config llm with
  | .ok interp =>
    let done := { r1 with
      astrology_data := calcs.astrology
      numerology_data := calcs.numerology
      zodiac_data := calcs.zodiac
      tarot_data := calcs.tarot
      interpretation := some interp.content
      llm_provider := some interp.provider
      llm_model := some interp.model
      status := ReadingStatus.completed }
    (done, .ok done)
  | .error e => ({ r1 with status := ReadingStatus.failed }, .error e)

/-- The prompt parts compiled inside `process_reading` for a given reading
row and calculator outcomes. -/
def processPromptParts (r : ReadingRow) (runs : CalcRuns)
    (partner_prompt_stub : Option String) (persona_config : Option PersonaConfig) :
    List String :=
  let calcs := performCalculations { r with status := ReadingStatus.processing } runs
  promptParts calcs.astrology calcs.numerology calcs.zodiac calcs.tarot
    r.question partner_prompt_stub persona_config

/-- The compiled prompt of `processPromptParts`, joined. -/
def processPrompt (r : ReadingRow) (runs : CalcRuns)
    (partner_prompt_stub : Option String) (persona_config : Option PersonaConfig) : String :=
  pyJoin "\n" (processPromptParts r runs partner_prompt_stub persona_config)

/-! ## Configuration resolution in `create_reading` -/

/-- A `Partner` row (only slug and identity matter to resolution). -/
structure PartnerRow where
  id : String
  slug : String
deriving DecidableEq

/-- A `Persona` row (identity, owning partner, default flag). -/
structure PersonaRow where
  id : String
  partner_id : String
  is_default : Bool
deriving DecidableEq

/-- A `Deck` row. -/
structure DeckRow where
  id : String
  slug : String
deriving DecidableEq

/-- A `Spread` row. -/
structure SpreadRow where
  id : String
  slug : String
deriving DecidableEq

/-- The relational store consulted by `create_reading`'s resolvers; each
`select ... where slug == ...` with `scalar_one_or_none()` is a first-match
lookup. -/
structure DbStore where
  partners : List PartnerRow
  personas : List PersonaRow
  decks : List DeckRow
  spreads : List SpreadRow
deriving DecidableEq

/-- The configured default slugs (`settings.DEFAULT_PARTNER_SLUG` and
`settings.DEFAULT_TAROT_DECK`). -/
structure SettingsCfg where
  DEFAULT_PARTNER_SLUG : String
  DEFAULT_TAROT_DECK : String
deriving DecidableEq

/-- Embeds `ReadingService._get_partner`: a truthy slug is looked up first;
on miss or no slug, the configured default partner is looked up; a missing
default raises `MetaMysticException("No default partner found", 500)`. -/
def getPartnerOp (db : DbStore) (cfg : SettingsCfg) (partner_slug : Option String) :
    Except MetaMysticErr PartnerRow :=
  let bySlug :=
    if pyTruthy partner_slug then
      db.partners.find? (fun p => p.slug == partner_slug.getD "")
    else none
  match bySlug with
  | some p => .ok p
  | none =>
    match db.partners.find? (fun p => p.slug == cfg.DEFAULT_PARTNER_SLUG) with
    | some p => .ok p
    | none => .error (metaMysticException "No default partner found" 500)

/-- Embeds `ReadingService._get_persona`: an explicit truthy id is looked up
and returned even when absent (no fallback); otherwise the partner's default
persona, if any. -/
def getPersonaOp (db : DbStore) (persona_id : Option String) (partner : PartnerRow) :
    Option PersonaRow :=
  if pyTruthy persona_id then
    db.personas.find? (fun pr => pr.id == persona_id.getD "")
  else
    db.personas.find? (fun pr => pr.partner_id == partner.id && pr.is_default)

/-- Embeds `ReadingService._get_deck`: a truthy slug is looked up first; on
miss or no slug, the configured default deck is looked up; a missing default
raises `MetaMysticException("No default deck found", 500)`. -/
def getDeckOp (db : DbStore) (cfg : SettingsCfg) (deck_slug : Option String) :
    Except MetaMysticErr DeckRow :=
  let bySlug :=
    if pyTruthy deck_slug then
      db.decks.find? (fun d => d.slug == deck_slug.getD "")
    else none
  match bySlug with
  | some d => .ok d
  | none =>
    match db.decks.find? (fun d => d.slug == cfg.DEFAULT_TAROT_DECK) with
    | some d => .ok d
    | none => .error (metaMysticException "No default deck found" 500)

/-- Embeds `ReadingService._get_spread`: the slug is looked up and a miss
raises `MetaMysticException(f"Spread ... not found", 404)`. -/
def getSpreadOp (db : DbStore) (spread_slug : String) : Except MetaMysticErr SpreadRow :=
  match db.spreads.find? (fun s => s.slug == spread_slug) with
  | some s => .ok s
  | none =>
    .error (metaMysticException ("Spread \x27" ++ spread_slug ++ "\x27 not found") 404)

/-- The request fields `create_reading` resolves against the store. -/
structure CreateRequestSlugs where
  partner_slug : Option String
  persona_id : Option String
  deck_slug : Option String
  spread_slug : String
deriving DecidableEq

/-- The resolved foreign keys of the `Reading` row `create_reading`
inserts with `status=PENDING`. -/
structure CreatedReading where
  partner_id : String
  persona_id : Option String
  deck_id : String
  spread_id : String
  status : ReadingStatus
deriving DecidableEq

/-- Embeds `ReadingService.create_reading`'s resolution-and-insert sequence
(the inserted row's result blobs are all null; only the resolved keys and
status are modelled). -/
def createReading (db : DbStore) (cfg : SettingsCfg) (req : CreateRequestSlugs) :
    Except MetaMysticErr CreatedReading := do
  let partner ← getPartnerOp db cfg req.partner_slug
  let persona := getPersonaOp db req.persona_id partner
  let deck ← getDeckOp db cfg req.deck_slug
  let spread ← getSpreadOp db req.spread_slug
  return { partner_id := partner.id
           persona_id := persona.map (fun p => p.id)
           deck_id := deck.id
           spread_id := spread.id
           status := ReadingStatus.pending }

/-! ## Supporting lemmas

Fuel sufficiency for the embedded `while` loops, and structural facts about
joining, swapping, shuffling, and positioning. -/

theorem digitSumGo_le (fuel : Nat) : ∀ n : Nat, digitSumGo fuel n ≤ n := by
  induction fuel with
  | zero => intro n; simp [digitSumGo]
  | succ fuel ih =>
    intro n
    simp only [digitSumGo]
    split
    · exact Nat.le_refl n
    · have h10 : 10 ≤ n := by omega
      have := ih (n / 10)
      have hdiv : n % 10 + n / 10 ≤ n := by omega
      omega

/-- The digit sum of a two-or-more-digit number is strictly smaller, so the
`while` loops strictly decrease and fuel equal to the starting value is
enough. -/
theorem digitSum_lt (n : Nat) (h : 10 ≤ n) : digitSum n < n := by
  unfold digitSum
  match n, h with
  | Nat.succ m, _ =>
    simp only [digitSumGo]
    rw [if_neg (by omega)]
    have := digitSumGo_le m (Nat.succ m / 10)
    omega

/-- Fuel-irrelevance for `digitSumGo`: any fuel at least the argument gives
the same value, so `digitSum` computes the full digit sum. -/
theorem digitSumGo_fuel_irrel :
    ∀ fuel1 fuel2 n : Nat, n ≤ fuel1 → n ≤ fuel2 → digitSumGo fuel1 n = digitSumGo fuel2 n := by
  intro fuel1
  induction fuel1 with
  | zero =>
    intro fuel2 n h1 _
    have : n = 0 := by omega
    subst this
    cases fuel2 <;> simp [digitSumGo]
  | succ fuel1 ih =>
    intro fuel2 n h1 h2
    cases fuel2 with
    | zero =>
      have : n = 0 := by omega
      subst this
      simp [digitSumGo]
    | succ fuel2 =>
      simp only [digitSumGo]
      split
      · rfl
      · have h10 : 10 ≤ n := by omega
        have hd : n / 10 ≤ fuel1 := by omega
        have hd2 : n / 10 ≤ fuel2 := by omega
        rw [ih fuel2 (n / 10) hd hd2]

/-- Fuel-irrelevance for the `reduce_to_single_digit` loop. -/
theorem reduceGo_fuel_irrel :
    ∀ fuel1 fuel2 : Nat, ∀ km : Bool, ∀ n : Nat, n ≤ fuel1 → n ≤ fuel2 →
      reduceGo fuel1 km n = reduceGo fuel2 km n := by
  intro fuel1
  induction fuel1 with
  | zero =>
    intro fuel2 km n h1 _
    have : n = 0 := by omega
    subst this
    cases fuel2 <;> simp [reduceGo]
  | succ fuel1 ih =>
    intro fuel2 km n h1 h2
    cases fuel2 with
    | zero =>
      have : n = 0 := by omega
      subst this
      simp [reduceGo]
    | succ fuel2 =>
      simp only [reduceGo]
      split
      · rfl
      · split
        · rfl
        · have h10 : 10 ≤ n := by omega
          have hlt := digitSum_lt n h10
          exact ih fuel2 km (digitSum n) (by omega) (by omega)

theorem pyJoin_length_ge (sep : String) :
    ∀ parts : List String, ∀ s : String, s ∈ parts → s.length ≤ (pyJoin sep parts).length := by
  intro parts
  induction parts with
  | nil => intro s h; simp at h
  | cons x xs ih =>
    intro s h
    rw [List.mem_cons] at h
    cases xs with
    | nil =>
      rcases h with h | h
      · subst h; simp [pyJoin]
      · simp at h
    | cons y ys =>
      rcases h with h | h
      · subst h
        simp only [pyJoin, String.length_append]
        omega
      · have := ih s h
        simp only [pyJoin, String.length_append]
        omega

/-- Every part of a Python join occurs verbatim inside the joined string. -/
theorem mem_pyJoin_isInfix (sep : String) :
    ∀ parts : List String, ∀ s : String, s ∈ parts →
      List.IsInfix s.data (pyJoin sep parts).data := by
  intro parts
  induction parts with
  | nil => intro s h; simp at h
  | cons x xs ih =>
    intro s h
    rw [List.mem_cons] at h
    cases xs with
    | nil =>
      rcases h with h | h
      · subst h
        exact ⟨[], [], by simp [pyJoin]⟩
      · simp at h
    | cons y ys =>
      rcases h with h | h
      · subst h
        exact ⟨[], (sep ++ pyJoin sep (y :: ys)).data, by simp [pyJoin]⟩
      · obtain ⟨u, v, huv⟩ := ih s h
        exact ⟨(x ++ sep).data ++ u, v, by simp [pyJoin, ← huv]⟩

theorem swapIdx_length {α : Type} (l : List α) (i j : Nat) :
    (swapIdx l i j).length = l.length := by
  unfold swapIdx
  split <;> simp

theorem shuffleGo_length {α : Type} (M : RandomModel) :
    ∀ i : Nat, ∀ l : List α, ∀ st : Nat, (shuffleGo M i l st).1.length = l.length := by
  intro i
  induction i with
  | zero => intro l st; simp [shuffleGo]
  | succ i ih =>
    intro l st
    simp only [shuffleGo]
    rw [ih, swapIdx_length]

theorem pyShuffle_length {α : Type} (M : RandomModel) (l : List α) (st : Nat) :
    (pyShuffle M l st).1.length = l.length :=
  shuffleGo_length M (l.length - 1) l st

theorem setIdx_get_self {α : Type} (l : List α) (n : Nat) (h : n < l.length) :
    l.set n (l.get ⟨n, h⟩) = l := by
  induction l generalizing n with
  | nil => simp at h
  | cons y ys ih =>
    cases n with
    | zero => simp
    | succ n => simpa using ih n (by simpa using h)

theorem getCons_set_perm {α : Type} (xs : List α) (k : Nat) (h : k < xs.length) (x : α) :
    List.Perm (xs.get ⟨k, h⟩ :: xs.set k x) (x :: xs) := by
  induction xs generalizing k with
  | nil => simp at h
  | cons y ys ih =>
    cases k with
    | zero => exact List.Perm.swap _ _ _
    | succ k =>
      have hk : k < ys.length := by simpa using h
      exact List.Perm.trans (List.Perm.swap _ _ _)
        (List.Perm.trans ((ih k hk).cons y) (List.Perm.swap _ _ _))

/-- One Fisher-Yates swap permutes the list. -/
theorem swapIdx_perm {α : Type} (l : List α) (i j : Nat) :
    List.Perm (swapIdx l i j) l := by
  unfold swapIdx
  split
  case isFalse => exact List.Perm.refl l
  case isTrue h =>
    obtain ⟨hi, hj⟩ := h
    by_cases hij : i = j
    · subst hij
      rw [List.set_set, setIdx_get_self]
    · have hj2 : j < (l.set i (l.get ⟨j, hj⟩)).length := by simpa using hj
      have h2 := getCons_set_perm (l.set i (l.get ⟨j, hj⟩)) j hj2 (l.get ⟨i, hi⟩)
      have hgB : (l.set i (l.get ⟨j, hj⟩)).get ⟨j, hj2⟩ = l.get ⟨j, hj⟩ := by
        simp only [List.get_eq_getElem, List.getElem_set]
        rw [if_neg hij]
      rw [hgB] at h2
      have h1 := getCons_set_perm l i hi (l.get ⟨j, hj⟩)
      exact List.Perm.cons_inv (h2.trans h1)

/-- `random.shuffle` permutes the list. -/
theorem shuffleGo_perm {α : Type} (M : RandomModel) :
    ∀ i : Nat, ∀ l : List α, ∀ st : Nat, List.Perm (shuffleGo M i l st).1 l := by
  intro i
  induction i with
  | zero => intro l st; exact List.Perm.refl l
  | succ i ih =>
    intro l st
    simp only [shuffleGo]
    exact (ih _ _).trans (swapIdx_perm l (i + 1) _)

theorem pyShuffle_perm {α : Type} (M : RandomModel) (l : List α) (st : Nat) :
    List.Perm (pyShuffle M l st).1 l :=
  shuffleGo_perm M (l.length - 1) l st

theorem assignOrientations_length (M : RandomModel) :
    ∀ cards : List Card, ∀ st : Nat, (assignOrientations M cards st).1.length = cards.length := by
  intro cards
  induction cards with
  | nil => intro st; simp [assignOrientations]
  | cons c cs ih =>
    intro st
    simp [assignOrientations, ih]

/-- Attaching orientations keeps the card identities in order. -/
theorem assignOrientations_cards (M : RandomModel) :
    ∀ cards : List Card, ∀ st : Nat,
      (assignOrientations M cards st).1.map (fun d => d.card) = cards := by
  intro cards
  induction cards with
  | nil => intro st; simp [assignOrientations]
  | cons c cs ih =>
    intro st
    simp [assignOrientations, ih]

theorem applyPositionsGo_length (positions : List SpreadPosition) :
    ∀ cards : List DrawnCard, ∀ i : Nat,
      (applyPositionsGo positions i cards).length =
        min cards.length (positions.length - i) := by
  intro cards
  induction cards with
  | nil => intro i; simp [applyPositionsGo]
  | cons c cs ih =>
    intro i
    simp only [applyPositionsGo]
    cases hp : positions.get? i with
    | some p =>
      have hlt : i < positions.length := by
        by_contra hge
        rw [List.get?_eq_none.mpr (by omega)] at hp
        cases hp
      simp only [List.length_cons, ih (i + 1)]
      omega
    | none =>
      have hge : positions.length ≤ i := by
        by_contra hlt
        rw [List.get?_eq_get (by omega)] at hp
        cases hp
      simp only [List.length_cons, ih (i + 1)]
      omega

/-- The cards kept by `apply_spread_positions` are exactly the first
`len(positions)` drawn cards, in order. -/
theorem applyPositionsGo_cards (positions : List SpreadPosition) :
    ∀ cards : List DrawnCard, ∀ i : Nat,
      (applyPositionsGo positions i cards).map (fun pc => (pc.card, pc.reversed)) =
        (cards.take (positions.length - i)).map (fun dc => (dc.card, dc.reversed)) := by
  intro cards
  induction cards with
  | nil => intro i; simp [applyPositionsGo]
  | cons c cs ih =>
    intro i
    simp only [applyPositionsGo]
    cases hp : positions.get? i with
    | some p =>
      have hlt : i < positions.length := by
        by_contra hge
        rw [List.get?_eq_none.mpr (by omega)] at hp
        cases hp
      have hsub : positions.length - i = (positions.length - (i + 1)) + 1 := by omega
      rw [hsub]
      simp only [List.take_succ_cons, List.map_cons, List.cons.injEq]
      exact ⟨trivial, ih (i + 1)⟩
    | none =>
      have hge : positions.length ≤ i := by
        by_contra hlt
        rw [List.get?_eq_get (by omega)] at hp
        cases hp
      have h0 : positions.length - i = 0 := by omega
      have h1 : positions.length - (i + 1) = 0 := by omega
      rw [h0]
      have := ih (i + 1)
      rw [h1] at this
      simpa using this

/-- Overdrawing fails with the typed calculation error, whatever the
generator state. -/
theorem drawCards_overdraw (M : RandomModel) (deck : Deck) (count st : Nat)
    (h : deck.cards.length < count) :
    drawCards M deck count st =
      .error (calculationError "tarot"
        ("Deck has only " ++ toString deck.cards.length ++ " cards, cannot draw "
          ++ toString count)) := by
  unfold drawCards
  rw [if_pos h]

/-- Inversion for a successful `draw_cards` call: the request was within the
deck size, exactly `count` cards come back, and their identities are the
first `count` entries of the shuffled deck. -/
theorem drawCards_ok_inv (M : RandomModel) (deck : Deck) (count st : Nat)
    (drawn : List DrawnCard) (st2 : Nat)
    (h : drawCards M deck count st = .ok (drawn, st2)) :
    count ≤ deck.cards.length ∧ drawn.length = count ∧
      drawn.map (fun d => d.card) = (pyShuffle M deck.cards st).1.take count := by
  unfold drawCards at h
  split at h
  · cases h
  case isFalse hnlt =>
    have hle : count ≤ deck.cards.length := by omega
    injection h with h2
    have hfst := congrArg Prod.fst h2
    have hdrawn : (assignOrientations M ((pyShuffle M deck.cards st).1.take count)
        (pyShuffle M deck.cards st).2).1 = drawn := hfst
    refine ⟨hle, ?_, ?_⟩
    · rw [← hdrawn, assignOrientations_length]
      rw [List.length_take, pyShuffle_length]
      omega
    · rw [← hdrawn, assignOrientations_cards]

/-! ## Concrete evaluation fixtures

A concrete generator model, deck, spreads, and loader environment used to
evaluate the embedded pipeline at specific inputs. -/

/-- A concrete generator model (an arbitrary deterministic state machine;
nothing below depends on its particular step function). -/
def testModel : RandomModel :=
  { seedState := fun s => s + 1
    next := fun st => (st * 41 + 7, st + 1)
    reversalFlag := fun n => n % 2 == 0 }

/-- A concrete card fixture. -/
def cardFool : Card :=
  { name := some "The Fool"
    upright_meaning := some "New beginnings"
    reversed_meaning := some "Recklessness" }

/-- A concrete card fixture. -/
def cardMagician : Card :=
  { name := some "The Magician"
    upright_meaning := some "Skill and willpower"
    reversed_meaning := some "Trickery" }

/-- A concrete card fixture. -/
def cardPriestess : Card :=
  { name := some "The High Priestess"
    upright_meaning := some "Intuition"
    reversed_meaning := some "Hidden agendas" }

/-- A concrete three-card deck fixture. -/
def testDeck : Deck :=
  { name := "Rider-Waite-Smith"
    description := some "Classic deck"
    cards := [cardFool, cardMagician, cardPriestess] }

/-- A concrete spread position fixture. -/
def posPast : SpreadPosition :=
  { name := some "Past"
    description := some "Past influences"
    x := some (-1), y := some 0, rotation := some 0 }

/-- A concrete spread position fixture. -/
def posPresent : SpreadPosition :=
  { name := some "Present"
    description := some "Current situation"
    x := some 0, y := some 0, rotation := some 0 }

/-- A concrete two-position spread whose `card_count` of 3 exceeds its two
positions, as needed to exercise the truncation behaviour. -/
def shortSpread : Spread :=
  { slug := some "short"
    name := some "Short"
    description := some "More cards than positions"
    card_count := 3
    positions := [posPast, posPresent] }

/-- A concrete spread requesting more cards than the test deck holds. -/
def bigSpread : Spread :=
  { slug := some "five_card"
    name := some "Five Card"
    description := some "Wide spread"
    card_count := 5
    positions := [posPast, posPresent] }

/-- A concrete loader environment over the fixtures. -/
def testEnv : TarotEnv :=
  { loadSpread := fun slug =>
      if slug == "short" then .ok shortSpread
      else if slug == "five_card" then .ok bigSpread
      else .error (calculationError "tarot" ("Failed to load spread \x27" ++ slug ++ "\x27: missing"))
    loadDeck := fun _ _ => .ok testDeck }

/-- The (successful) result of a concrete seeded two-card draw. -/
def drawTwoExample : List DrawnCard × Nat :=
  match drawCards testModel testDeck 2 0 with
  | .ok pr => pr
  | .error _ => ([], 0)

/-- The (successful) result of a concrete seeded reading over
`shortSpread`. -/
def shortReadingExample : ReadingData :=
  match (drawTarotReading testModel testEnv "short" none none (some 7) none 0).1 with
  | .ok rd => rd
  | .error _ =>
    { spread := shortSpread
      deck := { slug := "", name := "", description := none }
      question := none
      cards := []
      metadata := { seed := none, partner_slug := none } }

/-- Select an optional value by a Boolean, to range over the sixteen subsets
of present calculator results. -/
def selOpt {α : Type} (b : Bool) (x : α) : Option α :=
  if b then some x else none

/-- A representative present astrology result. -/
def astroExample : AstroData :=
  { birth_info := some { date := some "1990-06-15T14:30:00", location := some "New York" }
    planets := [("Sun", { sign := some "Gemini", house := some "10" }),
                ("Moon", { sign := some "Pisces", house := some "7" })]
    elements := [("air", 3), ("water", 2)] }

/-- A representative present numerology result. -/
def numerologyExample : NumerologyData :=
  { core_numbers := [("life_path", { number := some 4, meaning := some "Stability and hard work" }),
                     ("expression", { number := some 7, meaning := some "Spirituality and introspection" })] }

/-- A representative present Chinese zodiac result. -/
def zodiacExample : ZodiacData :=
  { animal := some { name := some "Horse", personality := some "Free-spirited and enthusiastic" }
    element := some { name := some "Metal", personality := some "Strong-willed and determined" }
    polarity := some { polarityType := some "Yang", meaning := some "Active, outward energy" } }

/-- A representative present tarot result. -/
def tarotExample : ReadingData :=
  { spread := shortSpread
    deck := { slug := "rider_waite_smith", name := "Rider-Waite-Smith", description := some "Classic deck" }
    question := none
    cards := [{ card := cardFool, reversed := false
                position := { index := 0, name := some "Past", description := some "Past influences"
                              x := -1, y := 0, rotation := 0 } },
              { card := cardMagician, reversed := true
                position := { index := 1, name := some "Present", description := some "Current situation"
                              x := 0, y := 0, rotation := 0 } }]
    metadata := { seed := some 42, partner_slug := none } }

/-- A reading row fixture with every birth input present and all result
blobs still null, as `create_reading` inserts it. -/
def readingExample : ReadingRow :=
  { status := ReadingStatus.pending
    hasBirthDate := true
    hasBirthTime := true
    hasBirthLatitude := true
    hasBirthLongitude := true
    question := some "Will I find balance?"
    astrology_data := none
    numerology_data := none
    zodiac_data := none
    tarot_data := none
    interpretation := none
    llm_provider := none
    llm_model := none }

/-- Calculator outcomes with all four calculators succeeding. -/
def runsAllOk : CalcRuns :=
  { astro := .ok astroExample
    numerology := .ok numerologyExample
    zodiac := .ok zodiacExample
    tarot := .ok tarotExample }

/-- Calculator outcomes where only the astrology calculator raises. -/
def runsAstroFail : CalcRuns :=
  { astro := .error (calculationError "astrology" "ephemeris unavailable")
    numerology := .ok numerologyExample
    zodiac := .ok zodiacExample
    tarot := .ok tarotExample }

/-- The provider response fixture. -/
def llmRespExample : LLMResponse :=
  { content := "A cohesive, positive reading."
    provider := "openai"
    model := "gpt-4" }

/-- A provider that answers every prompt. -/
def llmOk : String → Except String LLMResponse :=
  fun _ => .ok llmRespExample

/-- A provider whose call raises on every prompt. -/
def llmFail : String → Except String LLMResponse :=
  fun _ => .error "provider unavailable"

/-! ## Claim theorems -/

/-- C7 counterexample: the life-path calculation for 1990-06-15 does form
the digit string "06151990", but those digits sum to 31, not 40 as claimed
(the reduced life-path number is nevertheless 4). -/
theorem c7_life_path_sum_counterexample :
    lifePathDateDigits 6 15 1990 = [0, 6, 1, 5, 1, 9, 9, 0] ∧
    lifePathTotal 6 15 1990 = 31 ∧
    ¬ lifePathTotal 6 15 1990 = 40 := by
  decide

/-- C7 amended: for birth date 1990-06-15 the code forms the digit string
"06151990", sums its digits to 31, and reduces 31 (not a master number) to
the life-path number 4 by the digit-sum-then-reduce loop with master numbers
11/22/33 kept unreduced. -/
theorem c7_life_path_amended :
    lifePathDateDigits 6 15 1990 = [0, 6, 1, 5, 1, 9, 9, 0] ∧
    (calculateLifePathNumber 6 15 1990).calculation = "06151990 = 31 = 4" ∧
    (calculateLifePathNumber 6 15 1990).number = 4 ∧
    (calculateLifePathNumber 6 15 1990).is_master = false ∧
    reduceToSingleDigit true 31 = 4 := by
  exact ⟨by decide, by decide, by decide, by decide, by decide⟩

/-- C9: `reduce_to_single_digit` is the identity on already-reduced values:
on 1-9 for either `keep_master` flag, and on the master numbers 11/22/33
when `keep_master=true`. -/
theorem c9_reduce_fixed_points :
    (∀ v : Nat, 1 ≤ v → v ≤ 9 → ∀ km : Bool, reduceToSingleDigit km v = v) ∧
    reduceToSingleDigit true 11 = 11 ∧
    reduceToSingleDigit true 22 = 22 ∧
    reduceToSingleDigit true 33 = 33 := by
  refine ⟨?_, by decide, by decide, by decide⟩
  intro v h1 h9 km
  match v, h1 with
  | Nat.succ m, _ =>
    simp only [reduceToSingleDigit, reduceGo]
    rw [if_pos h9]

/-- C4: for a fixed seed, deck catalogue, and spread, the tarot draw is a
pure function of the seed — two invocations from arbitrary (and possibly
different) prior generator states return the same result, with the same card
identities in the same order and the same reversed/upright flag on each
card.  This holds for every generator model, because `random.seed(seed)`
replaces the global state before any draw. -/
theorem c4_seeded_draw_deterministic (M : RandomModel) (env : TarotEnv)
    (spread_slug : String) (deck_slug partner_slug : Option String) (seed : Nat)
    (question : Option String) (st1 st2 : Nat) :
    (drawTarotReading M env spread_slug deck_slug partner_slug (some seed) question st1).1 =
      (drawTarotReading M env spread_slug deck_slug partner_slug (some seed) question st2).1 ∧
    resultCardNames
        (drawTarotReading M env spread_slug deck_slug partner_slug (some seed) question st1).1 =
      resultCardNames
        (drawTarotReading M env spread_slug deck_slug partner_slug (some seed) question st2).1 ∧
    resultReversedFlags
        (drawTarotReading M env spread_slug deck_slug partner_slug (some seed) question st1).1 =
      resultReversedFlags
        (drawTarotReading M env spread_slug deck_slug partner_slug (some seed) question st2).1 := by
  exact ⟨rfl, rfl, rfl⟩

/-- C8: requesting strictly more cards than the deck holds fails with a
`CalculationError` tagged `tarot` (also through `draw_tarot_reading`, which
re-wraps it, keeping the tag); a successful draw is never short and never
repeats a card of a duplicate-free deck. -/
theorem c8_overdraw_rejected (M : RandomModel) (deck : Deck) :
    (∀ count st : Nat, deck.cards.length < count →
      drawCards M deck count st =
        .error (calculationError "tarot"
          ("Deck has only " ++ toString deck.cards.length ++ " cards, cannot draw "
            ++ toString count)) ∧
      ∀ e, drawCards M deck count st = .error e →
        e.calculation_type = some "tarot" ∧ e.error_code = "CALCULATION_ERROR" ∧
          e.status_code = 422) ∧
    (∀ count st st2 : Nat, ∀ drawn : List DrawnCard,
      drawCards M deck count st = .ok (drawn, st2) →
      drawn.length = count ∧
        (deck.cards.Nodup → (drawn.map (fun d => d.card)).Nodup)) ∧
    (∀ env : TarotEnv, ∀ spread_slug : String, ∀ deck_slug partner_slug : Option String,
      ∀ seed : Option Nat, ∀ question : Option String, ∀ gst : Nat, ∀ spread : Spread,
      env.loadSpread spread_slug = .ok spread →
      env.loadDeck deck_slug partner_slug = .ok deck →
      deck.cards.length < spread.card_count →
      ∃ e, (drawTarotReading M env spread_slug deck_slug partner_slug seed question gst).1 =
          .error e ∧
        e.calculation_type = some "tarot" ∧ e.error_code = "CALCULATION_ERROR") := by
  refine ⟨?_, ?_, ?_⟩
  · intro count st hlt
    refine ⟨drawCards_overdraw M deck count st hlt, ?_⟩
    intro e he
    rw [drawCards_overdraw M deck count st hlt] at he
    injection he with he
    subst he
    exact ⟨rfl, rfl, rfl⟩
  · intro count st st2 drawn h
    obtain ⟨hle, hlen, hmap⟩ := drawCards_ok_inv M deck count st drawn st2 h
    refine ⟨hlen, ?_⟩
    intro hnd
    rw [hmap]
    have hperm := pyShuffle_perm M deck.cards st
    have hnd2 : (pyShuffle M deck.cards st).1.Nodup := hperm.nodup_iff.mpr hnd
    exact List.Nodup.sublist (List.take_sublist _ _) hnd2
  · intro env spread_slug deck_slug partner_slug seed question gst spread hS hD hlt
    refine ⟨wrapTarotError (calculationError "tarot"
      ("Deck has only " ++ toString deck.cards.length ++ " cards, cannot draw "
        ++ toString spread.card_count)), ?_, rfl, rfl⟩
    unfold drawTarotReading
    rw [hS, hD]
    dsimp only
    rw [drawCards_overdraw M deck spread.card_count (seededState M seed gst) hlt]

/-- C10: `apply_spread_positions` keeps exactly the drawn cards that have a
spread position — the positioned list has length `min(drawn, positions)` and
consists of the first `len(positions)` drawn cards in order, so a spread
whose positions list is shorter than its `card_count` silently drops the
extra drawn cards; consequently a successful `draw_tarot_reading` returns
`min(card_count, positions)` positioned cards. -/
theorem c10_positions_truncate (cards : List DrawnCard) (spread : Spread) :
    (applySpreadPositions cards spread).length = min cards.length spread.positions.length ∧
    (applySpreadPositions cards spread).map (fun pc => (pc.card, pc.reversed)) =
      (cards.take spread.positions.length).map (fun dc => (dc.card, dc.reversed)) ∧
    (∀ M : RandomModel, ∀ env : TarotEnv, ∀ spread_slug : String,
      ∀ deck_slug partner_slug : Option String, ∀ seed : Option Nat,
      ∀ question : Option String, ∀ gst st2 : Nat, ∀ rd : ReadingData,
      drawTarotReading M env spread_slug deck_slug partner_slug seed question gst =
        (.ok rd, st2) →
      rd.cards.length = min rd.spread.card_count rd.spread.positions.length) := by
  refine ⟨?_, ?_, ?_⟩
  · have := applyPositionsGo_length spread.positions cards 0
    simpa [applySpreadPositions] using this
  · have := applyPositionsGo_cards spread.positions cards 0
    simpa [applySpreadPositions] using this
  · intro M env spread_slug deck_slug partner_slug seed question gst st2 rd h
    unfold drawTarotReading at h
    dsimp only at h
    cases hS : env.loadSpread spread_slug with
    | error e => rw [hS] at h; simp at h
    | ok spread2 =>
      rw [hS] at h
      cases hD : env.loadDeck deck_slug partner_slug with
      | error e => rw [hD] at h; simp at h
      | ok deck2 =>
        rw [hD] at h
        dsimp only at h
        cases hC : drawCards M deck2 spread2.card_count (seededState M seed gst) with
        | error e => rw [hC] at h; simp at h
        | ok pr =>
          obtain ⟨drawn, st1⟩ := pr
          rw [hC] at h
          obtain ⟨hle, hlen, hmap⟩ :=
            drawCards_ok_inv M deck2 spread2.card_count (seededState M seed gst) drawn st1 hC
          rw [Prod.mk.injEq] at h
          obtain ⟨h1, h2⟩ := h
          injection h1 with hrd
          subst hrd
          have hL := applyPositionsGo_length spread2.positions drawn 0
          simp only [applySpreadPositions, hL, hlen, Nat.sub_zero]

/-- C9 witness: the fixed-point law applied at the concrete values 5 (both
flags) and 22. -/
theorem c9_witness :
    (1 ≤ 5 ∧ 5 ≤ 9 ∧ reduceToSingleDigit false 5 = 5 ∧ reduceToSingleDigit true 5 = 5) ∧
    reduceToSingleDigit true 22 = 22 :=
  ⟨⟨by decide, by decide,
      c9_reduce_fixed_points.1 5 (by decide) (by decide) false,
      c9_reduce_fixed_points.1 5 (by decide) (by decide) true⟩,
    c9_reduce_fixed_points.2.2.1⟩

/-- Evaluation of `process_reading` when the provider call succeeds. -/
theorem processReading_llm_ok (r : ReadingRow) (runs : CalcRuns)
    (llm : String → Except String LLMResponse) (stub : Option String)
    (persona : Option PersonaConfig) (resp : LLMResponse)
    (hllm : llm (processPrompt r runs stub persona) = .ok resp) :
    processReading r runs llm stub persona =
      ({ r with
          status := ReadingStatus.completed
          astrology_data :=
            (performCalculations { r with status := ReadingStatus.processing } runs).astrology
          numerology_data :=
            (performCalculations { r with status := ReadingStatus.processing } runs).numerology
          zodiac_data :=
            (performCalculations { r with status := ReadingStatus.processing } runs).zodiac
          tarot_data :=
            (performCalculations { r with status := ReadingStatus.processing } runs).tarot
          interpretation := some resp.content
          llm_provider := some resp.provider
          llm_model := some resp.model },
        .ok { r with
          status := ReadingStatus.completed
          astrology_data :=
            (performCalculations { r with status := ReadingStatus.processing } runs).astrology
          numerology_data :=
            (performCalculations { r with status := ReadingStatus.processing } runs).numerology
          zodiac_data :=
            (performCalculations { r with status := ReadingStatus.processing } runs).zodiac
          tarot_data :=
            (performCalculations { r with status := ReadingStatus.processing } runs).tarot
          interpretation := some resp.content
          llm_provider := some resp.provider
          llm_model := some resp.model }) := by
  have hget : getAiInterpretation
      (performCalculations { r with status := ReadingStatus.processing } runs)
      r.question stub persona llm = .ok resp := by
    unfold getAiInterpretation
    rw [show interpretationPrompt
        (performCalculations { r with status := ReadingStatus.processing } runs)
        r.question stub persona = processPrompt r runs stub persona from rfl, hllm]
  unfold processReading
  dsimp only
  rw [hget]

/-- Evaluation of `process_reading` when the provider call raises: the row
is marked `failed` and the wrapped exception is re-raised. -/
theorem processReading_llm_error (r : ReadingRow) (runs : CalcRuns)
    (llm : String → Except String LLMResponse) (stub : Option String)
    (persona : Option PersonaConfig) (msg : String)
    (hllm : llm (processPrompt r runs stub persona) = .error msg) :
    processReading r runs llm stub persona =
      ({ r with status := ReadingStatus.failed },
        .error (llmProviderError "unknown" ("Failed to generate interpretation: " ++ msg))) := by
  have hget : getAiInterpretation
      (performCalculations { r with status := ReadingStatus.processing } runs)
      r.question stub persona llm =
      .error (llmProviderError "unknown" ("Failed to generate interpretation: " ++ msg)) := by
    unfold getAiInterpretation
    rw [show interpretationPrompt
        (performCalculations { r with status := ReadingStatus.processing } runs)
        r.question stub persona = processPrompt r runs stub persona from rfl, hllm]
  unfold processReading
  dsimp only
  rw [hget]

/-- C1: one calculator raising during the fan-out is caught and recorded as
absence for that calculator only — `process` still completes (given the
provider answers), the failed calculator's blob is null while each
succeeding calculator's blob is populated, and the compiled prompt carries
the corresponding "No ... data available." sentence. -/
theorem c1_calculator_failure_isolated (r : ReadingRow) (runs : CalcRuns)
    (llm : String → Except String LLMResponse) (stub : Option String)
    (persona : Option PersonaConfig) (resp : LLMResponse)
    (hbd : r.hasBirthDate = true) (hbt : r.hasBirthTime = true)
    (hlat : r.hasBirthLatitude = true) (hlong : r.hasBirthLongitude = true)
    (hllm : llm (processPrompt r runs stub persona) = .ok resp) :
    (processReading r runs llm stub persona).1.status = ReadingStatus.completed ∧
    (processReading r runs llm stub persona).2 = .ok (processReading r runs llm stub persona).1 ∧
    (processReading r runs llm stub persona).1.astrology_data = caught runs.astro ∧
    (processReading r runs llm stub persona).1.numerology_data = caught runs.numerology ∧
    (processReading r runs llm stub persona).1.zodiac_data = caught runs.zodiac ∧
    (processReading r runs llm stub persona).1.tarot_data = caught runs.tarot ∧
    (∀ e, runs.astro = .error e →
      (processReading r runs llm stub persona).1.astrology_data = none ∧
      "No astrology data available." ∈ processPromptParts r runs stub persona) ∧
    (∀ e, runs.numerology = .error e →
      (processReading r runs llm stub persona).1.numerology_data = none ∧
      "No numerology data available." ∈ processPromptParts r runs stub persona) ∧
    (∀ e, runs.zodiac = .error e →
      (processReading r runs llm stub persona).1.zodiac_data = none ∧
      "No Chinese zodiac data available." ∈ processPromptParts r runs stub persona) ∧
    (∀ e, runs.tarot = .error e →
      (processReading r runs llm stub persona).1.tarot_data = none ∧
      "No tarot data available." ∈ processPromptParts r runs stub persona) := by
  rw [processReading_llm_ok r runs llm stub persona resp hllm]
  refine ⟨rfl, rfl, ?_, ?_, ?_, ?_, ?_, ?_, ?_, ?_⟩
  · simp [performCalculations, hbd, hbt, hlat, hlong]
  · simp [performCalculations, hbd]
  · simp [performCalculations, hbd]
  · simp [performCalculations]
  · intro e he
    constructor
    · simp [performCalculations, hbd, hbt, hlat, hlong, he, caught]
    · simp [processPromptParts, promptParts, performCalculations, hbd, hbt, hlat, hlong,
        he, caught, formatAstroSection]
  · intro e he
    constructor
    · simp [performCalculations, hbd, he, caught]
    · simp [processPromptParts, promptParts, performCalculations, hbd, he, caught,
        formatNumerologySection]
  · intro e he
    constructor
    · simp [performCalculations, hbd, he, caught]
    · simp [processPromptParts, promptParts, performCalculations, hbd, he, caught,
        formatZodiacSection]
  · intro e he
    constructor
    · simp [performCalculations, he, caught]
    · simp [processPromptParts, promptParts, performCalculations, he, caught,
        formatTarotSection]

/-- C1 witness: with the astrology calculator raising and the other three
succeeding over the concrete fixtures, `process` completes with only the
astrology blob null and the prompt carrying the astrology absence
sentence. -/
theorem c1_witness :
    readingExample.hasBirthDate = true ∧
    runsAstroFail.astro = .error (calculationError "astrology" "ephemeris unavailable") ∧
    (processReading readingExample runsAstroFail llmOk none none).1.status =
      ReadingStatus.completed ∧
    (processReading readingExample runsAstroFail llmOk none none).1.astrology_data = none ∧
    (processReading readingExample runsAstroFail llmOk none none).1.numerology_data =
      some numerologyExample ∧
    (processReading readingExample runsAstroFail llmOk none none).1.zodiac_data =
      some zodiacExample ∧
    (processReading readingExample runsAstroFail llmOk none none).1.tarot_data =
      some tarotExample ∧
    "No astrology data available." ∈ processPromptParts readingExample runsAstroFail none none := by
  have h := c1_calculator_failure_isolated readingExample runsAstroFail llmOk none none
    llmRespExample rfl rfl rfl rfl rfl
  have ha := h.2.2.2.2.2.2.1 (calculationError "astrology" "ephemeris unavailable") rfl
  refine ⟨rfl, rfl, h.1, ha.1, ?_, ?_, ?_, ha.2⟩
  · rw [h.2.2.2.1]; exact rfl
  · rw [h.2.2.2.2.1]; exact rfl
  · rw [h.2.2.2.2.2.1]; exact rfl

/-- C2 counterexample: with every calculator succeeding but the provider
raising, `process` marks the reading `failed` and then re-raises the wrapped
provider error to its caller — the exception is not swallowed. -/
theorem c2_propagates_exception_counterexample :
    (processReading readingExample runsAllOk llmFail none none).1.status =
      ReadingStatus.failed ∧
    (processReading readingExample runsAllOk llmFail none none).2 =
      .error (llmProviderError "unknown"
        "Failed to generate interpretation: provider unavailable") ∧
    exceptIsOk (processReading readingExample runsAllOk llmFail none none).2 = false :=
  ⟨rfl, rfl, rfl⟩

/-- C2 amended: any provider error during `process` is caught, the reading's
status is set to `failed` and committed, and the wrapped exception is then
re-raised (bare `raise`) to `process`'s caller — the background task — so
the polling HTTP client still only observes the `failed` status. -/
theorem c2_failed_status_then_reraise (r : ReadingRow) (runs : CalcRuns)
    (llm : String → Except String LLMResponse) (stub : Option String)
    (persona : Option PersonaConfig) (msg : String)
    (hllm : llm (processPrompt r runs stub persona) = .error msg) :
    (processReading r runs llm stub persona).1.status = ReadingStatus.failed ∧
    (processReading r runs llm stub persona).2 =
      .error (llmProviderError "unknown" ("Failed to generate interpretation: " ++ msg)) ∧
    exceptIsOk (processReading r runs llm stub persona).2 = false := by
  rw [processReading_llm_error r runs llm stub persona msg hllm]
  exact ⟨rfl, rfl, rfl⟩

/-- C2 witness: the amended behaviour at the concrete fixtures. -/
theorem c2_witness :
    llmFail (processPrompt readingExample runsAllOk none none) =
      .error "provider unavailable" ∧
    (processReading readingExample runsAllOk llmFail none none).1.status =
      ReadingStatus.failed ∧
    (processReading readingExample runsAllOk llmFail none none).2 =
      .error (llmProviderError "unknown"
        "Failed to generate interpretation: provider unavailable") := by
  have h := c2_failed_status_then_reraise readingExample runsAllOk llmFail none none
    "provider unavailable" rfl
  exact ⟨rfl, h.1, h.2.1⟩

/-- C5 counterexample: all four calculators succeed, the provider then
raises, and the `failed` reading's result blobs are all still null — the
successful partial calculator results were discarded, not preserved. -/
theorem c5_discards_partial_results_counterexample :
    runsAllOk.astro = .ok astroExample ∧
    runsAllOk.numerology = .ok numerologyExample ∧
    runsAllOk.zodiac = .ok zodiacExample ∧
    runsAllOk.tarot = .ok tarotExample ∧
    (processReading readingExample runsAllOk llmFail none none).1.status =
      ReadingStatus.failed ∧
    (processReading readingExample runsAllOk llmFail none none).1.astrology_data = none ∧
    (processReading readingExample runsAllOk llmFail none none).1.numerology_data = none ∧
    (processReading readingExample runsAllOk llmFail none none).1.zodiac_data = none ∧
    (processReading readingExample runsAllOk llmFail none none).1.tarot_data = none :=
  ⟨rfl, rfl, rfl, rfl, rfl, rfl, rfl, rfl, rfl⟩

/-- C5 amended: when `process` ends in `failed`, the per-calculator result
blobs (and the interpretation) are left exactly as they were before the run
— null for a freshly created reading — because results are only assigned
after a successful interpretation; partial calculator results are not
persisted. -/
theorem c5_failed_leaves_blobs_unchanged (r : ReadingRow) (runs : CalcRuns)
    (llm : String → Except String LLMResponse) (stub : Option String)
    (persona : Option PersonaConfig) (msg : String)
    (hllm : llm (processPrompt r runs stub persona) = .error msg) :
    (processReading r runs llm stub persona).1.status = ReadingStatus.failed ∧
    (processReading r runs llm stub persona).1.astrology_data = r.astrology_data ∧
    (processReading r runs llm stub persona).1.numerology_data = r.numerology_data ∧
    (processReading r runs llm stub persona).1.zodiac_data = r.zodiac_data ∧
    (processReading r runs llm stub persona).1.tarot_data = r.tarot_data ∧
    (processReading r runs llm stub persona).1.interpretation = r.interpretation := by
  rw [processReading_llm_error r runs llm stub persona msg hllm]
  exact ⟨rfl, rfl, rfl, rfl, rfl, rfl⟩

/-- C5 witness: the amended behaviour at the concrete fixtures. -/
theorem c5_witness :
    llmFail (processPrompt readingExample runsAllOk none none) =
      .error "provider unavailable" ∧
    (processReading readingExample runsAllOk llmFail none none).1.status =
      ReadingStatus.failed ∧
    (processReading readingExample runsAllOk llmFail none none).1.astrology_data =
      readingExample.astrology_data ∧
    (processReading readingExample runsAllOk llmFail none none).1.tarot_data =
      readingExample.tarot_data := by
  have h := c5_failed_leaves_blobs_unchanged readingExample runsAllOk llmFail none none
    "provider unavailable" rfl
  exact ⟨rfl, h.1, h.2.1, h.2.2.2.2.1⟩

/-- C8 witness: over the three-card test deck, a four-card request fails
with the tagged calculation error, and a two-card request returns exactly
two distinct cards. -/
theorem c8_witness :
    testDeck.cards.length < 4 ∧
    drawCards testModel testDeck 4 0 =
      .error (calculationError "tarot" "Deck has only 3 cards, cannot draw 4") ∧
    testDeck.cards.Nodup ∧
    drawTwoExample.1.length = 2 ∧
    (drawTwoExample.1.map (fun d => d.card)).Nodup := by
  have hover := (c8_overdraw_rejected testModel testDeck).1 4 0 (by decide)
  have hok := (c8_overdraw_rejected testModel testDeck).2.1 2 0 drawTwoExample.2
    drawTwoExample.1 rfl
  exact ⟨by decide, hover.1, by decide, hok.1, hok.2 (by decide)⟩

/-- C10 witness: the concrete seeded reading over `shortSpread` (three cards
requested, two positions) returns exactly two positioned cards —
`min(card_count, positions)` — silently dropping the third drawn card. -/
theorem c10_witness :
    (drawTarotReading testModel testEnv "short" none none (some 7) none 0).1 =
      .ok shortReadingExample ∧
    shortReadingExample.cards.length =
      min shortReadingExample.spread.card_count shortReadingExample.spread.positions.length ∧
    shortReadingExample.cards.length = 2 ∧
    shortReadingExample.spread.card_count = 3 := by
  have hrun : drawTarotReading testModel testEnv "short" none none (some 7) none 0 =
      (.ok shortReadingExample,
        (drawTarotReading testModel testEnv "short" none none (some 7) none 0).2) := rfl
  refine ⟨rfl, ?_, by decide, by decide⟩
  exact (c10_positions_truncate [] shortSpread).2.2 testModel testEnv "short" none none
    (some 7) none 0 (drawTarotReading testModel testEnv "short" none none (some 7) none 0).2
    shortReadingExample hrun

/-- C3: the prompt compiler is total over any subset of present calculator
results — it always returns a non-empty prompt whose parts contain the four
section headers, an absent calculator renders exactly its "No ... data
available." sentence, and over all sixteen presence subsets (at
representative data) each of the four headers occurs exactly once. -/
theorem c3_prompt_compiler_total (a : Option AstroData) (n : Option NumerologyData)
    (z : Option ZodiacData) (t : Option ReadingData) :
    0 < (formatReadingPrompt a n z t none none none).length ∧
    ("ASTROLOGY:" ∈ promptParts a n z t none none none ∧
      "NUMEROLOGY:" ∈ promptParts a n z t none none none ∧
      "CHINESE ZODIAC:" ∈ promptParts a n z t none none none ∧
      "TAROT:" ∈ promptParts a n z t none none none) ∧
    (a = none → formatAstroSection a = "No astrology data available." ∧
      "No astrology data available." ∈ promptParts a n z t none none none) ∧
    (n = none → formatNumerologySection n = "No numerology data available." ∧
      "No numerology data available." ∈ promptParts a n z t none none none) ∧
    (z = none → formatZodiacSection z = "No Chinese zodiac data available." ∧
      "No Chinese zodiac data available." ∈ promptParts a n z t none none none) ∧
    (t = none → formatTarotSection t = "No tarot data available." ∧
      "No tarot data available." ∈ promptParts a n z t none none none) ∧
    (∀ bA bN bZ bT : Bool,
      (promptParts (selOpt bA astroExample) (selOpt bN numerologyExample)
          (selOpt bZ zodiacExample) (selOpt bT tarotExample) none none none).count
          "ASTROLOGY:" = 1 ∧
      (promptParts (selOpt bA astroExample) (selOpt bN numerologyExample)
          (selOpt bZ zodiacExample) (selOpt bT tarotExample) none none none).count
          "NUMEROLOGY:" = 1 ∧
      (promptParts (selOpt bA astroExample) (selOpt bN numerologyExample)
          (selOpt bZ zodiacExample) (selOpt bT tarotExample) none none none).count
          "CHINESE ZODIAC:" = 1 ∧
      (promptParts (selOpt bA astroExample) (selOpt bN numerologyExample)
          (selOpt bZ zodiacExample) (selOpt bT tarotExample) none none none).count
          "TAROT:" = 1) := by
  have hmem : "ASTROLOGY:" ∈ promptParts a n z t none none none := by
    simp [promptParts, personaLines, pyTruthy]
  refine ⟨?_, ⟨hmem, ?_, ?_, ?_⟩, ?_, ?_, ?_, ?_, ?_⟩
  · have hlen := pyJoin_length_ge "\n" (promptParts a n z t none none none) "ASTROLOGY:" hmem
    have h10 : ("ASTROLOGY:" : String).length = 10 := by decide
    unfold formatReadingPrompt
    omega
  · simp [promptParts, personaLines, pyTruthy]
  · simp [promptParts, personaLines, pyTruthy]
  · simp [promptParts, personaLines, pyTruthy]
  · intro ha
    subst ha
    exact ⟨rfl, by simp [promptParts, personaLines, pyTruthy, formatAstroSection]⟩
  · intro hn
    subst hn
    exact ⟨rfl, by simp [promptParts, personaLines, pyTruthy, formatNumerologySection]⟩
  · intro hz
    subst hz
    exact ⟨rfl, by simp [promptParts, personaLines, pyTruthy, formatZodiacSection]⟩
  · intro ht
    subst ht
    exact ⟨rfl, by simp [promptParts, personaLines, pyTruthy, formatTarotSection]⟩
  · decide

/-- C3 witness: the compiler applied to the empty subset (all four
calculators absent). -/
theorem c3_witness :
    formatAstroSection none = "No astrology data available." ∧
    "No astrology data available." ∈ promptParts none none none none none none none ∧
    formatTarotSection none = "No tarot data available." ∧
    "No tarot data available." ∈ promptParts none none none none none none none ∧
    0 < (formatReadingPrompt none none none none none none none).length := by
  have h := c3_prompt_compiler_total none none none none
  exact ⟨(h.2.2.1 rfl).1, (h.2.2.1 rfl).2, (h.2.2.2.2.2.1 rfl).1, (h.2.2.2.2.2.1 rfl).2, h.1⟩

/-- The configured default partner slug fixture. -/
def partnerDefaultEx : PartnerRow := { id := "p1", slug := "metamystic" }

/-- The configured default deck fixture. -/
def deckDefaultEx : DeckRow := { id := "d1", slug := "rider_waite_smith" }

/-- A spread row fixture. -/
def spreadRowEx : SpreadRow := { id := "s1", slug := "three_card" }

/-- The default persona fixture of the default partner. -/
def personaEx : PersonaRow := { id := "per1", partner_id := "p1", is_default := true }

/-- A store fixture holding exactly the default partner, its default
persona, the default deck, and one spread. -/
def dbExample : DbStore :=
  { partners := [partnerDefaultEx]
    personas := [personaEx]
    decks := [deckDefaultEx]
    spreads := [spreadRowEx] }

/-- An empty store, in which the default lookups also miss. -/
def dbEmpty : DbStore := { partners := [], personas := [], decks := [], spreads := [] }

/-- The configured defaults fixture (`metamystic`, `rider_waite_smith`). -/
def cfgExample : SettingsCfg :=
  { DEFAULT_PARTNER_SLUG := "metamystic", DEFAULT_TAROT_DECK := "rider_waite_smith" }

/-- C6 counterexample: a named, nonexistent deck slug does not make `create`
fail with `NotFound` — `_get_deck` silently substitutes the configured
default deck and `create_reading` succeeds. -/
theorem c6_deck_fallback_counterexample :
    dbExample.decks.find? (fun d => d.slug == "mystic_cats") = none ∧
    cfgExample.DEFAULT_TAROT_DECK ≠ "mystic_cats" ∧
    getDeckOp dbExample cfgExample (some "mystic_cats") = .ok deckDefaultEx ∧
    createReading dbExample cfgExample
      { partner_slug := none, persona_id := none, deck_slug := some "mystic_cats",
        spread_slug := "three_card" } =
      .ok { partner_id := "p1", persona_id := some "per1", deck_id := "d1",
            spread_id := "s1", status := ReadingStatus.pending } :=
  ⟨by decide, by decide, rfl, rfl⟩

/-- C6 amended: `create`'s resolution is — partner: a truthy slug found in
the store is used, and otherwise (no slug, or slug miss) the configured
default partner is silently substituted, a missing default raising the
500-status configuration error `No default partner found`; deck: identical
fallback semantics, a named nonexistent deck slug being silently replaced by
the default deck and the 500-status `No default deck found` raised only when
the default is also absent; spread: a nonexistent slug fails with the
404-status not-found error, which `create_reading` propagates. -/
theorem c6_slug_resolution (db : DbStore) (cfg : SettingsCfg) :
    (∀ s : String, ∀ p : PartnerRow, s ≠ "" →
      db.partners.find? (fun q => q.slug == s) = some p →
      getPartnerOp db cfg (some s) = .ok p) ∧
    (∀ os : Option String,
      (if pyTruthy os then db.partners.find? (fun q => q.slug == os.getD "") else none)
        = none →
      getPartnerOp db cfg os =
        (match db.partners.find? (fun p => p.slug == cfg.DEFAULT_PARTNER_SLUG) with
         | some p => .ok p
         | none => .error (metaMysticException "No default partner found" 500))) ∧
    (∀ s : String, ∀ d : DeckRow,
      db.decks.find? (fun q => q.slug == s) = none →
      db.decks.find? (fun q => q.slug == cfg.DEFAULT_TAROT_DECK) = some d →
      getDeckOp db cfg (some s) = .ok d) ∧
    (∀ s : String,
      db.decks.find? (fun q => q.slug == s) = none →
      db.decks.find? (fun q => q.slug == cfg.DEFAULT_TAROT_DECK) = none →
      getDeckOp db cfg (some s) =
        .error (metaMysticException "No default deck found" 500)) ∧
    (∀ s : String,
      db.spreads.find? (fun q => q.slug == s) = none →
      getSpreadOp db s =
        .error (metaMysticException ("Spread \x27" ++ s ++ "\x27 not found") 404) ∧
      (metaMysticException ("Spread \x27" ++ s ++ "\x27 not found") 404).status_code = 404) ∧
    (∀ req : CreateRequestSlugs, ∀ p : PartnerRow, ∀ d : DeckRow,
      getPartnerOp db cfg req.partner_slug = .ok p →
      getDeckOp db cfg req.deck_slug = .ok d →
      db.spreads.find? (fun q => q.slug == req.spread_slug) = none →
      createReading db cfg req =
        .error (metaMysticException ("Spread \x27" ++ req.spread_slug ++ "\x27 not found") 404)) := by
  refine ⟨?_, ?_, ?_, ?_, ?_, ?_⟩
  · intro s p hs hfind
    have ht : pyTruthy (some s) = true := by
      cases hb : s.isEmpty with
      | true => exact absurd ((String.isEmpty_iff s).mp hb) hs
      | false => simp [pyTruthy, hb]
    simp [getPartnerOp, ht, hfind]
  · intro os hby
    simp only [getPartnerOp]
    rw [hby]
  · intro s d hfind hdef
    cases hpt : pyTruthy (some s) with
    | true => simp [getDeckOp, hpt, hfind, hdef]
    | false => simp [getDeckOp, hpt, hdef]
  · intro s hfind hdef
    cases hpt : pyTruthy (some s) with
    | true => simp [getDeckOp, hpt, hfind, hdef]
    | false => simp [getDeckOp, hpt, hdef]
  · intro s hfind
    refine ⟨?_, rfl⟩
    simp [getSpreadOp, hfind]
  · intro req p d hp hd hfind
    unfold createReading getSpreadOp
    rw [hp, hd, hfind]
    rfl

/-- C6 witness: the resolution semantics applied over the concrete store —
an existing partner slug resolves to its row, a missing deck slug silently
falls back to the default deck, a missing spread slug yields the 404
not-found error, and with an empty store the partner fallback raises the
500 `No default partner found` configuration error. -/
theorem c6_witness :
    getPartnerOp dbExample cfgExample (some "metamystic") = .ok partnerDefaultEx ∧
    getDeckOp dbExample cfgExample (some "mystic_cats2") = .ok deckDefaultEx ∧
    getSpreadOp dbExample "celtic_cross" =
      .error (metaMysticException "Spread \x27celtic_cross\x27 not found" 404) ∧
    getPartnerOp dbEmpty cfgExample none =
      .error (metaMysticException "No default partner found" 500) := by
  have h := c6_slug_resolution dbExample cfgExample
  have hemp := (c6_slug_resolution dbEmpty cfgExample).2.1 none (by decide)
  refine ⟨h.1 "metamystic" partnerDefaultEx (by decide) (by decide), ?_, ?_, ?_⟩
  · exact h.2.2.1 "mystic_cats2" deckDefaultEx (by decide) (by decide)
  · exact (h.2.2.2.2.1 "celtic_cross" (by decide)).1
  · exact hemp

end MysticApp
